import Mathlib

/-!
Shallow embedding of the trip-booking REST API
(`src/server.js`, and the in-memory variant `src/unnamed/part_000`).

Every route is a direct mapping from an HTTP verb+path to a single
parameterized SQLite statement whose raw result is passed to the shared
`handleResponse` formatter.  We embed:

* SQL cell values as `Val` (SQLite INTEGER / REAL / TEXT / NULL);
* JSON response bodies as `Json`;
* HTTP responses as `Resp` (status plus optional JSON body; a `none`
  body models `res.json(undefined)`, which sends no JSON document);
* the database as `DB`: one list of rows per table plus the next
  AUTOINCREMENT id per table;
* each route handler as a Lean function taking the current `DB`, the
  outcome of its single SQL statement (`Option String`: `some m` means
  the statement failed with a `StorageError` carrying message `m`,
  `none` means it succeeded), and the request parameters.  Mutating
  handlers return the updated `DB` next to the response.

JavaScript truthiness matters in `handleResponse` (`if (!data && !changes)`)
and in the login validation (`if (!phone || !password)`); it is embedded
by `jsFalsy` / `jsFalsyVal` / `changesFalsy` below.
-/

namespace TripBooking

/-- A SQLite cell value: INTEGER, REAL, TEXT or NULL.  Request-body fields
are bound as statement parameters, so they range over the same type
(a field absent from the JSON body is bound as NULL). -/
inductive Val where
  | vint (n : Int)
  | vreal (q : ℚ)
  | vstr (s : String)
  | vnull
deriving DecidableEq, Repr

/-- SQL `=` comparison as used in WHERE clauses and the trip join:
NULL compares false against everything, the two numeric storage classes
compare numerically, TEXT compares only against TEXT. -/
def valEq : Val → Val → Bool
  | Val.vnull, _ => false
  | _, Val.vnull => false
  | Val.vint a, Val.vint b => a == b
  | Val.vint a, Val.vreal b => (a : ℚ) == b
  | Val.vreal a, Val.vint b => a == (b : ℚ)
  | Val.vreal a, Val.vreal b => a == b
  | Val.vstr a, Val.vstr b => a == b
  | Val.vstr _, _ => false
  | _, Val.vstr _ => false

/-- JSON documents, as produced by `res.json`. -/
inductive Json where
  | null
  | num (q : ℚ)
  | str (s : String)
  | arr (xs : List Json)
  | obj (fs : List (String × Json))
deriving Repr

/-- A value pulled out of a row, rendered into the JSON response. -/
def valToJson : Val → Json
  | Val.vint n => Json.num (n : ℚ)
  | Val.vreal q => Json.num q
  | Val.vstr s => Json.str s
  | Val.vnull => Json.null

/-- An HTTP response: status code and optional JSON body
(`none` models `res.json(undefined)`). -/
structure Resp where
  status : Nat
  body : Option Json
deriving Repr

/-- JavaScript truthiness test `!data` for the `data` argument of
`handleResponse`: `undefined`/`null` (here `none` / `some Json.null`),
the number `0`, and the empty string are falsy; objects and arrays
(in particular the empty array returned by `db.all` on an empty table)
are truthy. -/
def jsFalsy : Option Json → Bool
  | none => true
  | some Json.null => true
  | some (Json.num q) => q == 0
  | some (Json.str s) => s == ""
  | some (Json.arr _) => false
  | some (Json.obj _) => false

/-- JavaScript truthiness test `!changes` for the `changes` argument:
it is either absent (the JS default `null`) or the row count
`this.changes` of a mutation, and is falsy when absent or zero. -/
def changesFalsy : Option Nat → Bool
  | none => true
  | some n => n == 0

/-- The shared response formatter `handleResponse` of `src/server.js`
(lines 462-479).  The JS defaults (`notFoundStatusCode = 404`,
`notFoundMessage = "Not found"`, `changes = null`) are passed explicitly
at each call site below, exactly as JS default-application resolves them. -/
def handleResponse (err : Option String) (data : Option Json)
    (notFoundStatusCode : Nat) (notFoundMessage : String)
    (changes : Option Nat) : Resp :=
  match err with
  | some m => ⟨500, some (Json.obj [("error", Json.str m)])⟩
  | none =>
    if jsFalsy data && changesFalsy changes then
      ⟨notFoundStatusCode, some (Json.obj [("error", Json.str notFoundMessage)])⟩
    else
      ⟨200, data⟩

/-! ## Data model (schema of `initializeDatabase` in `src/unnamed/part_000`) -/

/-- A row of table `destination` (`idx INTEGER PRIMARY KEY AUTOINCREMENT,
zone TEXT NOT NULL`). -/
structure DestRow where
  idx : Nat
  zone : Val
deriving DecidableEq, Repr

/-- A row of table `trip`. -/
structure TripRow where
  idx : Nat
  name : Val
  country : Val
  destinationid : Val
  coverimage : Val
  detail : Val
  price : Val
  duration : Val
deriving DecidableEq, Repr

/-- A row of table `customer`. -/
structure CustRow where
  idx : Nat
  fullname : Val
  phone : Val
  email : Val
  image : Val
  password : Val
deriving DecidableEq, Repr

/-- A row of table `meeting`. -/
structure MeetRow where
  idx : Nat
  detail : Val
  meetingdatetime : Val
  latitude : Val
  longitude : Val
deriving DecidableEq, Repr

/-- A row of table `booking`. -/
structure BookRow where
  idx : Nat
  customerid : Val
  bookdatetime : Val
  tripid : Val
  meetingid : Val
deriving DecidableEq, Repr

/-- The whole store: the five tables (rows in rowid order, as `SELECT *`
returns them) plus, per table, the next AUTOINCREMENT id. -/
structure DB where
  destinations : List DestRow
  trips : List TripRow
  customers : List CustRow
  meetings : List MeetRow
  bookings : List BookRow
  nextDest : Nat
  nextTrip : Nat
  nextCust : Nat
  nextMeet : Nat
  nextBook : Nat
deriving DecidableEq, Repr

/-- The empty store (fresh file-backed database with empty tables). -/
def emptyDB : DB :=
  ⟨[], [], [], [], [], 1, 1, 1, 1, 1⟩

/-- `SELECT *` serialization of a destination row (column order idx, zone). -/
def destToJson (d : DestRow) : Json :=
  Json.obj [("idx", Json.num (d.idx : ℚ)), ("zone", valToJson d.zone)]

/-- `SELECT *` serialization of a customer row. -/
def custToJson (c : CustRow) : Json :=
  Json.obj [("idx", Json.num (c.idx : ℚ)), ("fullname", valToJson c.fullname),
    ("phone", valToJson c.phone), ("email", valToJson c.email),
    ("image", valToJson c.image), ("password", valToJson c.password)]

/-- `SELECT *` serialization of a meeting row. -/
def meetToJson (m : MeetRow) : Json :=
  Json.obj [("idx", Json.num (m.idx : ℚ)), ("detail", valToJson m.detail),
    ("meetingdatetime", valToJson m.meetingdatetime),
    ("latitude", valToJson m.latitude), ("longitude", valToJson m.longitude)]

/-- `SELECT *` serialization of a booking row. -/
def bookToJson (b : BookRow) : Json :=
  Json.obj [("idx", Json.num (b.idx : ℚ)), ("customerid", valToJson b.customerid),
    ("bookdatetime", valToJson b.bookdatetime), ("tripid", valToJson b.tripid),
    ("meetingid", valToJson b.meetingid)]

/-- `const copy = { ...row }; delete copy.password;` — remove a key from a
JSON object (identity on non-objects). -/
def jsDelete (k : String) : Json → Json
  | Json.obj fs => Json.obj (fs.filter (fun p => p.1 ≠ k))
  | j => j

/-! ## Destinations CRUD (`src/server.js` lines 20-81) -/

/-- GET /destinations: `db.all("SELECT * FROM destination")` into
`handleResponse(res, err, rows)`. -/
def getDestinations (s : DB) (e : Option String) : Resp :=
  handleResponse e
    (if e.isSome then none else some (Json.arr (s.destinations.map destToJson)))
    404 "Not found" none

/-- GET /destinations/:id: `db.get("SELECT * FROM destination WHERE idx = ?")`;
`db.get` yields the first matching row or `undefined`. -/
def getDestinationById (s : DB) (e : Option String) (id : Nat) : Resp :=
  handleResponse e
    (if e.isSome then none
     else ((s.destinations.filter (fun d => d.idx == id)).head?).map destToJson)
    404 "Destination not found" none

/-- POST /destinations: insert with the next AUTOINCREMENT id; the response
carries `this.lastID`.  (On statement failure `handleResponse` never reads
`data`, embedded here as `none`.) -/
def postDestination (s : DB) (e : Option String) (zone : Val) : Resp × DB :=
  match e with
  | some m => (handleResponse (some m) none 500 "Failed to create destination" none, s)
  | none =>
    let newId := s.nextDest
    (handleResponse none
      (some (Json.obj [("message", Json.str "Destination created successfully"),
        ("id", Json.num (newId : ℚ))]))
      500 "Failed to create destination" none,
     { s with destinations := s.destinations ++ [⟨newId, zone⟩],
              nextDest := newId + 1 })

/-- PUT /destinations/:id: `UPDATE destination SET zone = ? WHERE idx = ?`;
`this.changes` counts the rows matched by the WHERE clause. -/
def putDestination (s : DB) (e : Option String) (id : Nat) (zone : Val) : Resp × DB :=
  match e with
  | some m => (handleResponse (some m) none 404 "Destination not found" none, s)
  | none =>
    let changes := s.destinations.countP (fun d => d.idx == id)
    (handleResponse none
      (some (Json.obj [("message", Json.str "Destination updated successfully")]))
      404 "Destination not found" (some changes),
     { s with destinations :=
        s.destinations.map (fun d => if d.idx == id then { d with zone := zone } else d) })

/-- DELETE /destinations/:id: `DELETE FROM destination WHERE idx = ?`. -/
def deleteDestination (s : DB) (e : Option String) (id : Nat) : Resp × DB :=
  match e with
  | some m => (handleResponse (some m) none 404 "Destination not found" none, s)
  | none =>
    let changes := s.destinations.countP (fun d => d.idx == id)
    (handleResponse none
      (some (Json.obj [("message", Json.str "Destination deleted successfully")]))
      404 "Destination not found" (some changes),
     { s with destinations := s.destinations.filter (fun d => !(d.idx == id)) })

/-! ## Trips CRUD (`src/server.js` lines 87-188) -/

/-- The request body of POST/PUT /trips, destructured as
`const { name, country, destinationid, coverimage, detail, price, duration }
 = req.body` (an absent field is bound as NULL). -/
structure TripBody where
  name : Val
  country : Val
  destinationid : Val
  coverimage : Val
  detail : Val
  price : Val
  duration : Val
deriving DecidableEq, Repr

/-- The INNER JOIN of GET /trips and GET /trips/:id:
`FROM trip AS t JOIN destination AS d ON t.destinationid = d.idx`,
one joined row per (trip, matching destination) pair, trips outer. -/
def tripJoinPairs (s : DB) : List (TripRow × DestRow) :=
  s.trips.flatMap (fun t =>
    (s.destinations.filter (fun d => valEq t.destinationid (Val.vint (d.idx : Int)))).map
      (fun d => (t, d)))

/-- Serialization of one joined row: the selected columns
`t.idx, t.name, t.country, t.coverimage, t.detail, t.price, t.duration,
 d.zone AS destination_zone` (note: `t.destinationid` is not selected). -/
def tripJoinedToJson (p : TripRow × DestRow) : Json :=
  Json.obj [("idx", Json.num (p.1.idx : ℚ)), ("name", valToJson p.1.name),
    ("country", valToJson p.1.country), ("coverimage", valToJson p.1.coverimage),
    ("detail", valToJson p.1.detail), ("price", valToJson p.1.price),
    ("duration", valToJson p.1.duration), ("destination_zone", valToJson p.2.zone)]

/-- GET /trips: the join query through `db.all` into `handleResponse`. -/
def getTrips (s : DB) (e : Option String) : Resp :=
  handleResponse e
    (if e.isSome then none else some (Json.arr ((tripJoinPairs s).map tripJoinedToJson)))
    404 "Not found" none

/-- GET /trips/:id: the same join with `WHERE t.idx = ?` through `db.get`. -/
def getTripById (s : DB) (e : Option String) (id : Nat) : Resp :=
  handleResponse e
    (if e.isSome then none
     else (((tripJoinPairs s).filter (fun p => p.1.idx == id)).head?).map tripJoinedToJson)
    404 "Trip not found" none

/-- POST /trips. -/
def postTrip (s : DB) (e : Option String) (b : TripBody) : Resp × DB :=
  match e with
  | some m => (handleResponse (some m) none 500 "Failed to create trip" none, s)
  | none =>
    let newId := s.nextTrip
    (handleResponse none
      (some (Json.obj [("message", Json.str "Trip created successfully"),
        ("id", Json.num (newId : ℚ))]))
      500 "Failed to create trip" none,
     { s with trips := s.trips ++
                [⟨newId, b.name, b.country, b.destinationid, b.coverimage, b.detail,
                  b.price, b.duration⟩],
              nextTrip := newId + 1 })

/-- PUT /trips/:id: full-row update keyed by id. -/
def putTrip (s : DB) (e : Option String) (id : Nat) (b : TripBody) : Resp × DB :=
  match e with
  | some m => (handleResponse (some m) none 404 "Trip not found" none, s)
  | none =>
    let changes := s.trips.countP (fun t => t.idx == id)
    (handleResponse none
      (some (Json.obj [("message", Json.str "Trip updated successfully")]))
      404 "Trip not found" (some changes),
     { s with trips := s.trips.map (fun t =>
        if t.idx == id then
          ⟨t.idx, b.name, b.country, b.destinationid, b.coverimage, b.detail,
           b.price, b.duration⟩
        else t) })

/-- DELETE /trips/:id. -/
def deleteTrip (s : DB) (e : Option String) (id : Nat) : Resp × DB :=
  match e with
  | some m => (handleResponse (some m) none 404 "Trip not found" none, s)
  | none =>
    let changes := s.trips.countP (fun t => t.idx == id)
    (handleResponse none
      (some (Json.obj [("message", Json.str "Trip deleted successfully")]))
      404 "Trip not found" (some changes),
     { s with trips := s.trips.filter (fun t => !(t.idx == id)) })

/-! ## Customers CRUD and login (`src/server.js` lines 194-314) -/

/-- The request body of POST /customers. -/
structure CustBody where
  fullname : Val
  phone : Val
  email : Val
  image : Val
  password : Val
deriving DecidableEq, Repr

/-- The request body of PUT /customers/:id — the handler destructures only
`{ fullname, phone, email, image }`; the body's password field, if any,
is never read. -/
structure CustUpdBody where
  fullname : Val
  phone : Val
  email : Val
  image : Val
deriving DecidableEq, Repr

/-- GET /customers: on success every row is copied and its `password`
property deleted before the sanitized list reaches `handleResponse`;
on a storage error the handler calls `handleResponse(res, err)` with the
JS defaults for the remaining arguments. -/
def getCustomers (s : DB) (e : Option String) : Resp :=
  match e with
  | some m => handleResponse (some m) none 404 "Not found" none
  | none =>
    handleResponse none
      (some (Json.arr (s.customers.map (fun c => jsDelete "password" (custToJson c)))))
      404 "Not found" none

/-- GET /customers/:id: explicit error and missing-row branches, then the
sanitized row through `handleResponse(res, null, sanitizedRow)` (defaults). -/
def getCustomerById (s : DB) (e : Option String) (id : Nat) : Resp :=
  match e with
  | some m => handleResponse (some m) none 404 "Customer not found" none
  | none =>
    match (s.customers.filter (fun c => c.idx == id)).head? with
    | none => handleResponse none none 404 "Customer not found" none
    | some c => handleResponse none (some (jsDelete "password" (custToJson c)))
        404 "Not found" none

/-- POST /customers: all five fields, password included, are inserted. -/
def postCustomer (s : DB) (e : Option String) (b : CustBody) : Resp × DB :=
  match e with
  | some m => (handleResponse (some m) none 500 "Failed to create customer" none, s)
  | none =>
    let newId := s.nextCust
    (handleResponse none
      (some (Json.obj [("message", Json.str "Customer created successfully"),
        ("id", Json.num (newId : ℚ))]))
      500 "Failed to create customer" none,
     { s with customers := s.customers ++
                [⟨newId, b.fullname, b.phone, b.email, b.image, b.password⟩],
              nextCust := newId + 1 })

/-- PUT /customers/:id:
`UPDATE customer SET fullname = ?, phone = ?, email = ?, image = ? WHERE idx = ?`
— the password column is not in the SET list. -/
def putCustomer (s : DB) (e : Option String) (id : Nat) (b : CustUpdBody) : Resp × DB :=
  match e with
  | some m => (handleResponse (some m) none 404 "Customer not found" none, s)
  | none =>
    let changes := s.customers.countP (fun c => c.idx == id)
    (handleResponse none
      (some (Json.obj [("message", Json.str "Customer updated successfully")]))
      404 "Customer not found" (some changes),
     { s with customers := s.customers.map (fun c =>
        if c.idx == id then
          { c with fullname := b.fullname, phone := b.phone, email := b.email,
                   image := b.image }
        else c) })

/-- DELETE /customers/:id. -/
def deleteCustomer (s : DB) (e : Option String) (id : Nat) : Resp × DB :=
  match e with
  | some m => (handleResponse (some m) none 404 "Customer not found" none, s)
  | none =>
    let changes := s.customers.countP (fun c => c.idx == id)
    (handleResponse none
      (some (Json.obj [("message", Json.str "Customer deleted successfully")]))
      404 "Customer not found" (some changes),
     { s with customers := s.customers.filter (fun c => !(c.idx == id)) })

/-- JavaScript truthiness test `!phone` / `!password` on a request-body
field: absent (`none`), JSON `null`, the empty string and the number `0`
are falsy. -/
def jsFalsyVal : Option Val → Bool
  | none => true
  | some Val.vnull => true
  | some (Val.vint n) => n == 0
  | some (Val.vreal q) => q == 0
  | some (Val.vstr s) => s == ""

/-- POST /customers/login: a distinct code path that bypasses
`handleResponse`.  `if (!phone || !password)` → 400 before any storage
access; then `SELECT * FROM customer WHERE phone = ? AND password = ?`
through `db.get`; error → 500, no row → 401, row → 200 with the row
copied and its password deleted, wrapped under `message`/`customer`. -/
def postLogin (s : DB) (e : Option String) (phone password : Option Val) : Resp :=
  if jsFalsyVal phone || jsFalsyVal password then
    ⟨400, some (Json.obj [("error", Json.str "Phone and password are required")])⟩
  else
    match e with
    | some m => ⟨500, some (Json.obj [("error", Json.str m)])⟩
    | none =>
      match (s.customers.filter (fun c =>
        valEq c.phone (phone.getD Val.vnull) &&
        valEq c.password (password.getD Val.vnull))).head? with
      | none => ⟨401, some (Json.obj [("error", Json.str "Invalid phone or password")])⟩
      | some c =>
        ⟨200, some (Json.obj [("message", Json.str "Login successful"),
          ("customer", jsDelete "password" (custToJson c))])⟩

/-! ## Meetings CRUD (`src/server.js` lines 320-385) -/

/-- The request body of POST/PUT /meetings. -/
structure MeetBody where
  detail : Val
  meetingdatetime : Val
  latitude : Val
  longitude : Val
deriving DecidableEq, Repr

/-- GET /meetings. -/
def getMeetings (s : DB) (e : Option String) : Resp :=
  handleResponse e
    (if e.isSome then none else some (Json.arr (s.meetings.map meetToJson)))
    404 "Not found" none

/-- GET /meetings/:id. -/
def getMeetingById (s : DB) (e : Option String) (id : Nat) : Resp :=
  handleResponse e
    (if e.isSome then none
     else ((s.meetings.filter (fun m => m.idx == id)).head?).map meetToJson)
    404 "Meeting not found" none

/-- POST /meetings. -/
def postMeeting (s : DB) (e : Option String) (b : MeetBody) : Resp × DB :=
  match e with
  | some m => (handleResponse (some m) none 500 "Failed to create meeting" none, s)
  | none =>
    let newId := s.nextMeet
    (handleResponse none
      (some (Json.obj [("message", Json.str "Meeting created successfully"),
        ("id", Json.num (newId : ℚ))]))
      500 "Failed to create meeting" none,
     { s with meetings := s.meetings ++
                [⟨newId, b.detail, b.meetingdatetime, b.latitude, b.longitude⟩],
              nextMeet := newId + 1 })

/-- PUT /meetings/:id. -/
def putMeeting (s : DB) (e : Option String) (id : Nat) (b : MeetBody) : Resp × DB :=
  match e with
  | some m => (handleResponse (some m) none 404 "Meeting not found" none, s)
  | none =>
    let changes := s.meetings.countP (fun m => m.idx == id)
    (handleResponse none
      (some (Json.obj [("message", Json.str "Meeting updated successfully")]))
      404 "Meeting not found" (some changes),
     { s with meetings := s.meetings.map (fun m =>
        if m.idx == id then
          ⟨m.idx, b.detail, b.meetingdatetime, b.latitude, b.longitude⟩
        else m) })

/-- DELETE /meetings/:id. -/
def deleteMeeting (s : DB) (e : Option String) (id : Nat) : Resp × DB :=
  match e with
  | some m => (handleResponse (some m) none 404 "Meeting not found" none, s)
  | none =>
    let changes := s.meetings.countP (fun m => m.idx == id)
    (handleResponse none
      (some (Json.obj [("message", Json.str "Meeting deleted successfully")]))
      404 "Meeting not found" (some changes),
     { s with meetings := s.meetings.filter (fun m => !(m.idx == id)) })

/-! ## Bookings CRUD (`src/server.js` lines 391-456) -/

/-- The request body of POST/PUT /bookings. -/
structure BookBody where
  customerid : Val
  bookdatetime : Val
  tripid : Val
  meetingid : Val
deriving DecidableEq, Repr

/-- GET /bookings. -/
def getBookings (s : DB) (e : Option String) : Resp :=
  handleResponse e
    (if e.isSome then none else some (Json.arr (s.bookings.map bookToJson)))
    404 "Not found" none

/-- GET /bookings/:id. -/
def getBookingById (s : DB) (e : Option String) (id : Nat) : Resp :=
  handleResponse e
    (if e.isSome then none
     else ((s.bookings.filter (fun b => b.idx == id)).head?).map bookToJson)
    404 "Booking not found" none

/-- POST /bookings. -/
def postBooking (s : DB) (e : Option String) (b : BookBody) : Resp × DB :=
  match e with
  | some m => (handleResponse (some m) none 500 "Failed to create booking" none, s)
  | none =>
    let newId := s.nextBook
    (handleResponse none
      (some (Json.obj [("message", Json.str "Booking created successfully"),
        ("id", Json.num (newId : ℚ))]))
      500 "Failed to create booking" none,
     { s with bookings := s.bookings ++
                [⟨newId, b.customerid, b.bookdatetime, b.tripid, b.meetingid⟩],
              nextBook := newId + 1 })

/-- PUT /bookings/:id. -/
def putBooking (s : DB) (e : Option String) (id : Nat) (b : BookBody) : Resp × DB :=
  match e with
  | some m => (handleResponse (some m) none 404 "Booking not found" none, s)
  | none =>
    let changes := s.bookings.countP (fun r => r.idx == id)
    (handleResponse none
      (some (Json.obj [("message", Json.str "Booking updated successfully")]))
      404 "Booking not found" (some changes),
     { s with bookings := s.bookings.map (fun r =>
        if r.idx == id then
          ⟨r.idx, b.customerid, b.bookdatetime, b.tripid, b.meetingid⟩
        else r) })

/-- DELETE /bookings/:id. -/
def deleteBooking (s : DB) (e : Option String) (id : Nat) : Resp × DB :=
  match e with
  | some m => (handleResponse (some m) none 404 "Booking not found" none, s)
  | none =>
    let changes := s.bookings.countP (fun r => r.idx == id)
    (handleResponse none
      (some (Json.obj [("message", Json.str "Booking deleted successfully")]))
      404 "Booking not found" (some changes),
     { s with bookings := s.bookings.filter (fun r => !(r.idx == id)) })

/-! ## The full HTTP surface as one dispatcher -/

/-- One request to any of the routes of `src/server.js`, with its already
parsed path parameter and body fields. -/
inductive Req where
  | destList
  | destGet (id : Nat)
  | destCreate (zone : Val)
  | destUpdate (id : Nat) (zone : Val)
  | destDelete (id : Nat)
  | tripList
  | tripGet (id : Nat)
  | tripCreate (b : TripBody)
  | tripUpdate (id : Nat) (b : TripBody)
  | tripDelete (id : Nat)
  | custList
  | custGet (id : Nat)
  | custCreate (b : CustBody)
  | custUpdate (id : Nat) (b : CustUpdBody)
  | custDelete (id : Nat)
  | custLogin (phone password : Option Val)
  | meetList
  | meetGet (id : Nat)
  | meetCreate (b : MeetBody)
  | meetUpdate (id : Nat) (b : MeetBody)
  | meetDelete (id : Nat)
  | bookList
  | bookGet (id : Nat)
  | bookCreate (b : BookBody)
  | bookUpdate (id : Nat) (b : BookBody)
  | bookDelete (id : Nat)
deriving DecidableEq, Repr

/-- The whole `src/server.js` endpoint surface: dispatch a request against
a store `s`, with `e` the outcome of the handler's single SQL statement.
Read-only routes leave the store unchanged. -/
def serve (s : DB) (e : Option String) : Req → Resp × DB
  | Req.destList => (getDestinations s e, s)
  | Req.destGet id => (getDestinationById s e id, s)
  | Req.destCreate zone => postDestination s e zone
  | Req.destUpdate id zone => putDestination s e id zone
  | Req.destDelete id => deleteDestination s e id
  | Req.tripList => (getTrips s e, s)
  | Req.tripGet id => (getTripById s e id, s)
  | Req.tripCreate b => postTrip s e b
  | Req.tripUpdate id b => putTrip s e id b
  | Req.tripDelete id => deleteTrip s e id
  | Req.custList => (getCustomers s e, s)
  | Req.custGet id => (getCustomerById s e id, s)
  | Req.custCreate b => postCustomer s e b
  | Req.custUpdate id b => putCustomer s e id b
  | Req.custDelete id => deleteCustomer s e id
  | Req.custLogin phone password => (postLogin s e phone password, s)
  | Req.meetList => (getMeetings s e, s)
  | Req.meetGet id => (getMeetingById s e id, s)
  | Req.meetCreate b => postMeeting s e b
  | Req.meetUpdate id b => putMeeting s e id b
  | Req.meetDelete id => deleteMeeting s e id
  | Req.bookList => (getBookings s e, s)
  | Req.bookGet id => (getBookingById s e id, s)
  | Req.bookCreate b => postBooking s e b
  | Req.bookUpdate id b => putBooking s e id b
  | Req.bookDelete id => deleteBooking s e id

/-! ## The in-memory variant (`src/unnamed/part_000`)

The `handleResponse` formatter and all route handlers of the second source
file, embedded independently from that file (its lines 106-565) under an
`M` suffix.  The two files declare the same schema, so the row types,
request-body shapes and `SELECT *` serializers above are shared; the
`M`-suffixed definitions below retrace the second file's formatter and
handler code.  Only storage location, seeding (`initializeDatabase`,
embedded as `seedDB`) and startup logging differ between the two files. -/

def handleResponseM (err : Option String) (data : Option Json)
    (notFoundStatusCode : Nat) (notFoundMessage : String)
    (changes : Option Nat) : Resp :=
  match err with
  | some m => ⟨500, some (Json.obj [("error", Json.str m)])⟩
  | none =>
    if jsFalsy data && changesFalsy changes then
      ⟨notFoundStatusCode, some (Json.obj [("error", Json.str notFoundMessage)])⟩
    else
      ⟨200, data⟩

def getDestinationsM (s : DB) (e : Option String) : Resp :=
  handleResponseM e
    (if e.isSome then none else some (Json.arr (s.destinations.map destToJson)))
    404 "Not found" none

def getDestinationByIdM (s : DB) (e : Option String) (id : Nat) : Resp :=
  handleResponseM e
    (if e.isSome then none
     else ((s.destinations.filter (fun d => d.idx == id)).head?).map destToJson)
    404 "Destination not found" none

def postDestinationM (s : DB) (e : Option String) (zone : Val) : Resp × DB :=
  match e with
  | some m => (handleResponseM (some m) none 500 "Failed to create destination" none, s)
  | none =>
    let newId := s.nextDest
    (handleResponseM none
      (some (Json.obj [("message", Json.str "Destination created successfully"),
        ("id", Json.num (newId : ℚ))]))
      500 "Failed to create destination" none,
     { s with destinations := s.destinations ++ [⟨newId, zone⟩],
              nextDest := newId + 1 })

def putDestinationM (s : DB) (e : Option String) (id : Nat) (zone : Val) : Resp × DB :=
  match e with
  | some m => (handleResponseM (some m) none 404 "Destination not found" none, s)
  | none =>
    let changes := s.destinations.countP (fun d => d.idx == id)
    (handleResponseM none
      (some (Json.obj [("message", Json.str "Destination updated successfully")]))
      404 "Destination not found" (some changes),
     { s with destinations :=
        s.destinations.map (fun d => if d.idx == id then { d with zone := zone } else d) })

def deleteDestinationM (s : DB) (e : Option String) (id : Nat) : Resp × DB :=
  match e with
  | some m => (handleResponseM (some m) none 404 "Destination not found" none, s)
  | none =>
    let changes := s.destinations.countP (fun d => d.idx == id)
    (handleResponseM none
      (some (Json.obj [("message", Json.str "Destination deleted successfully")]))
      404 "Destination not found" (some changes),
     { s with destinations := s.destinations.filter (fun d => !(d.idx == id)) })

def tripJoinPairsM (s : DB) : List (TripRow × DestRow) :=
  s.trips.flatMap (fun t =>
    (s.destinations.filter (fun d => valEq t.destinationid (Val.vint (d.idx : Int)))).map
      (fun d => (t, d)))

def tripJoinedToJsonM (p : TripRow × DestRow) : Json :=
  Json.obj [("idx", Json.num (p.1.idx : ℚ)), ("name", valToJson p.1.name),
    ("country", valToJson p.1.country), ("coverimage", valToJson p.1.coverimage),
    ("detail", valToJson p.1.detail), ("price", valToJson p.1.price),
    ("duration", valToJson p.1.duration), ("destination_zone", valToJson p.2.zone)]

def getTripsM (s : DB) (e : Option String) : Resp :=
  handleResponseM e
    (if e.isSome then none else some (Json.arr ((tripJoinPairsM s).map tripJoinedToJsonM)))
    404 "Not found" none

def getTripByIdM (s : DB) (e : Option String) (id : Nat) : Resp :=
  handleResponseM e
    (if e.isSome then none
     else (((tripJoinPairsM s).filter (fun p => p.1.idx == id)).head?).map tripJoinedToJsonM)
    404 "Trip not found" none

def postTripM (s : DB) (e : Option String) (b : TripBody) : Resp × DB :=
  match e with
  | some m => (handleResponseM (some m) none 500 "Failed to create trip" none, s)
  | none =>
    let newId := s.nextTrip
    (handleResponseM none
      (some (Json.obj [("message", Json.str "Trip created successfully"),
        ("id", Json.num (newId : ℚ))]))
      500 "Failed to create trip" none,
     { s with trips := s.trips ++
                [⟨newId, b.name, b.country, b.destinationid, b.coverimage, b.detail,
                  b.price, b.duration⟩],
              nextTrip := newId + 1 })

def putTripM (s : DB) (e : Option String) (id : Nat) (b : TripBody) : Resp × DB :=
  match e with
  | some m => (handleResponseM (some m) none 404 "Trip not found" none, s)
  | none =>
    let changes := s.trips.countP (fun t => t.idx == id)
    (handleResponseM none
      (some (Json.obj [("message", Json.str "Trip updated successfully")]))
      404 "Trip not found" (some changes),
     { s with trips := s.trips.map (fun t =>
        if t.idx == id then
          ⟨t.idx, b.name, b.country, b.destinationid, b.coverimage, b.detail,
           b.price, b.duration⟩
        else t) })

def deleteTripM (s : DB) (e : Option String) (id : Nat) : Resp × DB :=
  match e with
  | some m => (handleResponseM (some m) none 404 "Trip not found" none, s)
  | none =>
    let changes := s.trips.countP (fun t => t.idx == id)
    (handleResponseM none
      (some (Json.obj [("message", Json.str "Trip deleted successfully")]))
      404 "Trip not found" (some changes),
     { s with trips := s.trips.filter (fun t => !(t.idx == id)) })

def getCustomersM (s : DB) (e : Option String) : Resp :=
  match e with
  | some m => handleResponseM (some m) none 404 "Not found" none
  | none =>
    handleResponseM none
      (some (Json.arr (s.customers.map (fun c => jsDelete "password" (custToJson c)))))
      404 "Not found" none

def getCustomerByIdM (s : DB) (e : Option String) (id : Nat) : Resp :=
  match e with
  | some m => handleResponseM (some m) none 404 "Customer not found" none
  | none =>
    match (s.customers.filter (fun c => c.idx == id)).head? with
    | none => handleResponseM none none 404 "Customer not found" none
    | some c => handleResponseM none (some (jsDelete "password" (custToJson c)))
        404 "Not found" none

def postCustomerM (s : DB) (e : Option String) (b : CustBody) : Resp × DB :=
  match e with
  | some m => (handleResponseM (some m) none 500 "Failed to create customer" none, s)
  | none =>
    let newId := s.nextCust
    (handleResponseM none
      (some (Json.obj [("message", Json.str "Customer created successfully"),
        ("id", Json.num (newId : ℚ))]))
      500 "Failed to create customer" none,
     { s with customers := s.customers ++
                [⟨newId, b.fullname, b.phone, b.email, b.image, b.password⟩],
              nextCust := newId + 1 })

def putCustomerM (s : DB) (e : Option String) (id : Nat) (b : CustUpdBody) : Resp × DB :=
  match e with
  | some m => (handleResponseM (some m) none 404 "Customer not found" none, s)
  | none =>
    let changes := s.customers.countP (fun c => c.idx == id)
    (handleResponseM none
      (some (Json.obj [("message", Json.str "Customer updated successfully")]))
      404 "Customer not found" (some changes),
     { s with customers := s.customers.map (fun c =>
        if c.idx == id then
          { c with fullname := b.fullname, phone := b.phone, email := b.email,
                   image := b.image }
        else c) })

def deleteCustomerM (s : DB) (e : Option String) (id : Nat) : Resp × DB :=
  match e with
  | some m => (handleResponseM (some m) none 404 "Customer not found" none, s)
  | none =>
    let changes := s.customers.countP (fun c => c.idx == id)
    (handleResponseM none
      (some (Json.obj [("message", Json.str "Customer deleted successfully")]))
      404 "Customer not found" (some changes),
     { s with customers := s.customers.filter (fun c => !(c.idx == id)) })

def postLoginM (s : DB) (e : Option String) (phone password : Option Val) : Resp :=
  if jsFalsyVal phone || jsFalsyVal password then
    ⟨400, some (Json.obj [("error", Json.str "Phone and password are required")])⟩
  else
    match e with
    | some m => ⟨500, some (Json.obj [("error", Json.str m)])⟩
    | none =>
      match (s.customers.filter (fun c =>
        valEq c.phone (phone.getD Val.vnull) &&
        valEq c.password (password.getD Val.vnull))).head? with
      | none => ⟨401, some (Json.obj [("error", Json.str "Invalid phone or password")])⟩
      | some c =>
        ⟨200, some (Json.obj [("message", Json.str "Login successful"),
          ("customer", jsDelete "password" (custToJson c))])⟩

def getMeetingsM (s : DB) (e : Option String) : Resp :=
  handleResponseM e
    (if e.isSome then none else some (Json.arr (s.meetings.map meetToJson)))
    404 "Not found" none

def getMeetingByIdM (s : DB) (e : Option String) (id : Nat) : Resp :=
  handleResponseM e
    (if e.isSome then none
     else ((s.meetings.filter (fun m => m.idx == id)).head?).map meetToJson)
    404 "Meeting not found" none

def postMeetingM (s : DB) (e : Option String) (b : MeetBody) : Resp × DB :=
  match e with
  | some m => (handleResponseM (some m) none 500 "Failed to create meeting" none, s)
  | none =>
    let newId := s.nextMeet
    (handleResponseM none
      (some (Json.obj [("message", Json.str "Meeting created successfully"),
        ("id", Json.num (newId : ℚ))]))
      500 "Failed to create meeting" none,
     { s with meetings := s.meetings ++
                [⟨newId, b.detail, b.meetingdatetime, b.latitude, b.longitude⟩],
              nextMeet := newId + 1 })

def putMeetingM (s : DB) (e : Option String) (id : Nat) (b : MeetBody) : Resp × DB :=
  match e with
  | some m => (handleResponseM (some m) none 404 "Meeting not found" none, s)
  | none =>
    let changes := s.meetings.countP (fun m => m.idx == id)
    (handleResponseM none
      (some (Json.obj [("message", Json.str "Meeting updated successfully")]))
      404 "Meeting not found" (some changes),
     { s with meetings := s.meetings.map (fun m =>
        if m.idx == id then
          ⟨m.idx, b.detail, b.meetingdatetime, b.latitude, b.longitude⟩
        else m) })

def deleteMeetingM (s : DB) (e : Option String) (id : Nat) : Resp × DB :=
  match e with
  | some m => (handleResponseM (some m) none 404 "Meeting not found" none, s)
  | none =>
    let changes := s.meetings.countP (fun m => m.idx == id)
    (handleResponseM none
      (some (Json.obj [("message", Json.str "Meeting deleted successfully")]))
      404 "Meeting not found" (some changes),
     { s with meetings := s.meetings.filter (fun m => !(m.idx == id)) })

def getBookingsM (s : DB) (e : Option String) : Resp :=
  handleResponseM e
    (if e.isSome then none else some (Json.arr (s.bookings.map bookToJson)))
    404 "Not found" none

def getBookingByIdM (s : DB) (e : Option String) (id : Nat) : Resp :=
  handleResponseM e
    (if e.isSome then none
     else ((s.bookings.filter (fun b => b.idx == id)).head?).map bookToJson)
    404 "Booking not found" none

def postBookingM (s : DB) (e : Option String) (b : BookBody) : Resp × DB :=
  match e with
  | some m => (handleResponseM (some m) none 500 "Failed to create booking" none, s)
  | none =>
    let newId := s.nextBook
    (handleResponseM none
      (some (Json.obj [("message", Json.str "Booking created successfully"),
        ("id", Json.num (newId : ℚ))]))
      500 "Failed to create booking" none,
     { s with bookings := s.bookings ++
                [⟨newId, b.customerid, b.bookdatetime, b.tripid, b.meetingid⟩],
              nextBook := newId + 1 })

def putBookingM (s : DB) (e : Option String) (id : Nat) (b : BookBody) : Resp × DB :=
  match e with
  | some m => (handleResponseM (some m) none 404 "Booking not found" none, s)
  | none =>
    let changes := s.bookings.countP (fun r => r.idx == id)
    (handleResponseM none
      (some (Json.obj [("message", Json.str "Booking updated successfully")]))
      404 "Booking not found" (some changes),
     { s with bookings := s.bookings.map (fun r =>
        if r.idx == id then
          ⟨r.idx, b.customerid, b.bookdatetime, b.tripid, b.meetingid⟩
        else r) })

def deleteBookingM (s : DB) (e : Option String) (id : Nat) : Resp × DB :=
  match e with
  | some m => (handleResponseM (some m) none 404 "Booking not found" none, s)
  | none =>
    let changes := s.bookings.countP (fun r => r.idx == id)
    (handleResponseM none
      (some (Json.obj [("message", Json.str "Booking deleted successfully")]))
      404 "Booking not found" (some changes),
     { s with bookings := s.bookings.filter (fun r => !(r.idx == id)) })

def serveM (s : DB) (e : Option String) : Req → Resp × DB
  | Req.destList => (getDestinationsM s e, s)
  | Req.destGet id => (getDestinationByIdM s e id, s)
  | Req.destCreate zone => postDestinationM s e zone
  | Req.destUpdate id zone => putDestinationM s e id zone
  | Req.destDelete id => deleteDestinationM s e id
  | Req.tripList => (getTripsM s e, s)
  | Req.tripGet id => (getTripByIdM s e id, s)
  | Req.tripCreate b => postTripM s e b
  | Req.tripUpdate id b => putTripM s e id b
  | Req.tripDelete id => deleteTripM s e id
  | Req.custList => (getCustomersM s e, s)
  | Req.custGet id => (getCustomerByIdM s e id, s)
  | Req.custCreate b => postCustomerM s e b
  | Req.custUpdate id b => putCustomerM s e id b
  | Req.custDelete id => deleteCustomerM s e id
  | Req.custLogin phone password => (postLoginM s e phone password, s)
  | Req.meetList => (getMeetingsM s e, s)
  | Req.meetGet id => (getMeetingByIdM s e id, s)
  | Req.meetCreate b => postMeetingM s e b
  | Req.meetUpdate id b => putMeetingM s e id b
  | Req.meetDelete id => deleteMeetingM s e id
  | Req.bookList => (getBookingsM s e, s)
  | Req.bookGet id => (getBookingByIdM s e id, s)
  | Req.bookCreate b => postBookingM s e b
  | Req.bookUpdate id b => putBookingM s e id b
  | Req.bookDelete id => deleteBookingM s e id

/-- The seeded in-memory store provisioned by `initializeDatabase` /
`insertSampleData` in `src/unnamed/part_000`: three destinations
(Asia, Europe, America), two trips, one customer, one meeting. -/
def seedDB : DB :=
  { destinations :=
      [⟨1, Val.vstr "Asia"⟩, ⟨2, Val.vstr "Europe"⟩, ⟨3, Val.vstr "America"⟩],
    trips :=
      [⟨1, Val.vstr "Tokyo Adventure", Val.vstr "Japan", Val.vint 1,
        Val.vstr "tokyo.jpg", Val.vstr "Explore the vibrant city of Tokyo",
        Val.vreal 1500, Val.vint 7⟩,
       ⟨2, Val.vstr "Paris Romance", Val.vstr "France", Val.vint 2,
        Val.vstr "paris.jpg", Val.vstr "Romantic getaway in the City of Light",
        Val.vreal 2000, Val.vint 5⟩],
    customers :=
      [⟨1, Val.vstr "John Doe", Val.vstr "+1234567890", Val.vstr "john@example.com",
        Val.vstr "john.jpg", Val.vstr "password123"⟩],
    meetings :=
      [⟨1, Val.vstr "Airport pickup", Val.vstr "2024-01-15 10:00:00",
        Val.vreal (356762 / 10000 : ℚ), Val.vreal (1396503 / 10000 : ℚ)⟩],
    bookings := [],
    nextDest := 4, nextTrip := 3, nextCust := 2, nextMeet := 2, nextBook := 1 }

/-! ## Auxiliary definitions for the claims -/

/-- Rows with fresh ids: every id already in the table is strictly below the
table's next AUTOINCREMENT id.  This is the invariant SQLite's
`INTEGER PRIMARY KEY AUTOINCREMENT` maintains. -/
def WF (s : DB) : Bool :=
  s.destinations.all (fun d => d.idx < s.nextDest) &&
  s.trips.all (fun t => t.idx < s.nextTrip) &&
  s.customers.all (fun c => c.idx < s.nextCust) &&
  s.meetings.all (fun m => m.idx < s.nextMeet) &&
  s.bookings.all (fun b => b.idx < s.nextBook)

mutual

/-- No `password` key occurs anywhere in a JSON document. -/
def pwFreeJ : Json → Bool
  | Json.null => true
  | Json.num _ => true
  | Json.str _ => true
  | Json.arr xs => pwFreeL xs
  | Json.obj fs => pwFreeO fs

/-- No `password` key occurs anywhere in a list of JSON documents. -/
def pwFreeL : List Json → Bool
  | [] => true
  | x :: xs => pwFreeJ x && pwFreeL xs

/-- An object field list neither uses the `password` key nor hides one in a
nested value. -/
def pwFreeO : List (String × Json) → Bool
  | [] => true
  | (k, v) :: fs => !(k == "password") && pwFreeJ v && pwFreeO fs

end

/-- No `password` key occurs anywhere in an optional JSON document. -/
def optPwFree : Option Json → Bool
  | none => true
  | some j => pwFreeJ j

/-- No `password` key occurs anywhere in the (optional) body of a response. -/
def respPwFree (r : Resp) : Bool :=
  optPwFree r.body

/-! ## Helper lemmas -/

theorem filter_key_append_fresh {α : Type} (f : α → Nat) (l : List α) (x : α)
    (n : Nat) (hx : f x = n) (h : ∀ a ∈ l, f a < n) :
    (l ++ [x]).filter (fun a => f a == n) = [x] := by
  rw [List.filter_append]
  have h1 : l.filter (fun a => f a == n) = [] := by
    refine List.filter_eq_nil_iff.mpr ?_
    intro a ha
    simpa using Nat.ne_of_lt (h a ha)
  simp [h1, hx]

theorem filter_key_of_removed {α : Type} (f : α → Nat) (l : List α) (n : Nat) :
    (l.filter (fun a => !(f a == n))).filter (fun a => f a == n) = [] := by
  refine List.filter_eq_nil_iff.mpr ?_
  intro a ha
  have := (List.mem_filter.mp ha).2
  simpa using this

/-- Every pair produced by the trip join consists of a trip of the store and
a destination of the store whose `idx` the trip's `destinationid` matches. -/
theorem mem_tripJoinPairs {s : DB} {p : TripRow × DestRow}
    (hp : p ∈ tripJoinPairs s) :
    p.1 ∈ s.trips ∧ p.2 ∈ s.destinations ∧
      valEq p.1.destinationid (Val.vint (p.2.idx : Int)) = true := by
  unfold tripJoinPairs at hp
  obtain ⟨t, ht, hmem⟩ := List.mem_flatMap.mp hp
  obtain ⟨d, hd, rfl⟩ := List.mem_map.mp hmem
  obtain ⟨hd1, hd2⟩ := List.mem_filter.mp hd
  exact ⟨ht, hd1, hd2⟩

/-- SQL `=` against an integer is injective in the integer: a cell cannot be
numerically equal to two distinct integers. -/
theorem valEq_vint_inj {v : Val} {a b : Int} (ha : valEq v (Val.vint a) = true)
    (hb : valEq v (Val.vint b) = true) : a = b := by
  cases v with
  | vint n =>
    simp only [valEq, beq_iff_eq] at ha hb
    omega
  | vreal q =>
    simp only [valEq, beq_iff_eq] at ha hb
    exact_mod_cast ha.symm.trans hb
  | vstr s => simp [valEq] at ha
  | vnull => simp [valEq] at ha

/-- `valToJson` only produces scalar JSON values. -/
theorem pwFree_valToJson (v : Val) :
    pwFreeJ (valToJson v) = true := by
  cases v <;> rfl

/-! ## Claim theorems -/

/-- **C1.** The shared response formatter `handleResponse`, given a storage
outcome, a not-found status/message pair and an optional affected-row
count, decides in this order: (1) a storage error emits HTTP 500 with
`{error: message}`, taking priority over every other condition; (2) else
if the success payload is JS-falsy (empty/absent) and no positive
affected-row count was supplied, it emits the caller-specified not-found
status with `{error: notFoundMessage}` (the JS defaults 404 / "Not found"
are what call sites that omit these arguments pass); (3) else it emits
HTTP 200 with the payload as the JSON body. -/
theorem handleResponse_decision (data : Option Json) (nf : Nat) (nm : String)
    (ch : Option Nat) :
    (∀ m, handleResponse (some m) data nf nm ch =
      ⟨500, some (Json.obj [("error", Json.str m)])⟩) ∧
    (jsFalsy data = true → changesFalsy ch = true →
      handleResponse none data nf nm ch =
        ⟨nf, some (Json.obj [("error", Json.str nm)])⟩) ∧
    ((jsFalsy data = false ∨ changesFalsy ch = false) →
      handleResponse none data nf nm ch = ⟨200, data⟩) := by
  refine ⟨fun m => rfl, fun h1 h2 => by simp [handleResponse, h1, h2], fun h => ?_⟩
  rcases h with h | h <;> simp [handleResponse, h]

/-- Witness for C1: the three branches of `handleResponse_decision` at
concrete inputs. -/
theorem handleResponse_decision_witness :
    handleResponse (some "boom") (some (Json.arr [])) 404 "Not found" none =
      ⟨500, some (Json.obj [("error", Json.str "boom")])⟩ ∧
    handleResponse none none 404 "Destination not found" none =
      ⟨404, some (Json.obj [("error", Json.str "Destination not found")])⟩ ∧
    handleResponse none (some (Json.arr [])) 404 "Not found" none =
      ⟨200, some (Json.arr [])⟩ :=
  ⟨(handleResponse_decision (some (Json.arr [])) 404 "Not found" none).1 "boom",
   (handleResponse_decision none 404 "Destination not found" none).2.1 rfl rfl,
   (handleResponse_decision (some (Json.arr [])) 404 "Not found" none).2.2
     (Or.inl rfl)⟩

/-- **C2 (code bug).** The claim — and the spec — say a PUT/DELETE that
matches zero rows reports 404.  The code does not: every mutation hands
`handleResponse` the truthy success object `{message: ...}`, so the
`!data && !changes` branch can never fire for a mutation and the
affected-row count is dead.  Evaluated at the failing input: on the seeded
store (trips 1 and 2 only) `PUT /trips/999` and `DELETE /trips/999` match
zero rows (`this.changes = 0`), raise no storage error, and still answer
HTTP 200 with the success message, never 404. -/
theorem zeroRowMutation_returns_200 :
    (seedDB.trips.countP (fun t => t.idx == 999) = 0) ∧
    (putTrip seedDB none 999
        ⟨Val.vnull, Val.vnull, Val.vnull, Val.vnull, Val.vnull, Val.vnull,
         Val.vnull⟩).1 =
      ⟨200, some (Json.obj [("message", Json.str "Trip updated successfully")])⟩ ∧
    (deleteTrip seedDB none 999).1 =
      ⟨200, some (Json.obj [("message", Json.str "Trip deleted successfully")])⟩ := by
  exact ⟨rfl, rfl, rfl⟩

/-- **C3.** The login operation, for every request body, storage state and
storage outcome: missing/JS-falsy phone or password gives HTTP 400 before
any storage access (independent of the stored customers and even of the
storage outcome); otherwise a failed lookup gives HTTP 500 with
`{error: message}`; otherwise if no row matches both phone and password
exactly it gives HTTP 401 with the generic invalid-credentials message;
otherwise HTTP 200 with the matching row minus its password field (under
the `message`/`customer` wrapper). -/
theorem login_decision (s : DB) (e : Option String) (ph pw : Option Val) :
    ((jsFalsyVal ph = true ∨ jsFalsyVal pw = true) →
      postLogin s e ph pw =
        ⟨400, some (Json.obj [("error", Json.str "Phone and password are required")])⟩) ∧
    (jsFalsyVal ph = false → jsFalsyVal pw = false →
      ((∀ m, e = some m →
        postLogin s e ph pw = ⟨500, some (Json.obj [("error", Json.str m)])⟩) ∧
      (e = none →
        (s.customers.filter (fun c =>
          valEq c.phone (ph.getD Val.vnull) &&
          valEq c.password (pw.getD Val.vnull))).head? = none →
        postLogin s e ph pw =
          ⟨401, some (Json.obj [("error", Json.str "Invalid phone or password")])⟩) ∧
      (∀ c, e = none →
        (s.customers.filter (fun c =>
          valEq c.phone (ph.getD Val.vnull) &&
          valEq c.password (pw.getD Val.vnull))).head? = some c →
        postLogin s e ph pw =
          ⟨200, some (Json.obj [("message", Json.str "Login successful"),
            ("customer", jsDelete "password" (custToJson c))])⟩))) := by
  constructor
  · intro h
    rcases h with h | h <;> simp [postLogin, h]
  · intro h1 h2
    refine ⟨fun m he => ?_, fun he hnone => ?_, fun c he hsome => ?_⟩
    · subst he; simp [postLogin, h1, h2]
    · subst he
      unfold postLogin
      rw [h1, h2, hnone]
      simp
    · subst he
      unfold postLogin
      rw [h1, h2, hsome]
      simp

/-- Witness for C3: the 400 and the successful 200 branches of
`login_decision` at concrete inputs on the seeded store. -/
theorem login_decision_witness :
    postLogin seedDB none none (some (Val.vstr "password123")) =
      ⟨400, some (Json.obj [("error", Json.str "Phone and password are required")])⟩ ∧
    postLogin seedDB none (some (Val.vstr "+1234567890"))
        (some (Val.vstr "password123")) =
      ⟨200, some (Json.obj [("message", Json.str "Login successful"),
        ("customer", jsDelete "password" (custToJson
          ⟨1, Val.vstr "John Doe", Val.vstr "+1234567890",
           Val.vstr "john@example.com", Val.vstr "john.jpg",
           Val.vstr "password123"⟩))])⟩ :=
  ⟨(login_decision seedDB none none (some (Val.vstr "password123"))).1
      (Or.inl rfl),
   ((login_decision seedDB none (some (Val.vstr "+1234567890"))
      (some (Val.vstr "password123"))).2 rfl rfl).2.2
      ⟨1, Val.vstr "John Doe", Val.vstr "+1234567890",
       Val.vstr "john@example.com", Val.vstr "john.jpg",
       Val.vstr "password123"⟩ rfl rfl⟩

/-- **C10.** When a list query succeeds on a table that yields zero rows,
the response is HTTP 200 with the empty JSON array, not a 404: the empty
array is JS-truthy, so the formatter's not-found branch never fires for a
list result.  (For GET /trips the relevant emptiness is that of the join
result.) -/
theorem empty_list_200 (s : DB) :
    (s.destinations = [] → getDestinations s none = ⟨200, some (Json.arr [])⟩) ∧
    (tripJoinPairs s = [] → getTrips s none = ⟨200, some (Json.arr [])⟩) ∧
    (s.customers = [] → getCustomers s none = ⟨200, some (Json.arr [])⟩) ∧
    (s.meetings = [] → getMeetings s none = ⟨200, some (Json.arr [])⟩) ∧
    (s.bookings = [] → getBookings s none = ⟨200, some (Json.arr [])⟩) := by
  refine ⟨fun h => ?_, fun h => ?_, fun h => ?_, fun h => ?_, fun h => ?_⟩ <;>
    simp [getDestinations, getTrips, getCustomers, getMeetings, getBookings,
      handleResponse, jsFalsy, h]

/-- Witness for C10: all five list endpoints on the empty store. -/
theorem empty_list_200_witness :
    getDestinations emptyDB none = ⟨200, some (Json.arr [])⟩ ∧
    getTrips emptyDB none = ⟨200, some (Json.arr [])⟩ ∧
    getCustomers emptyDB none = ⟨200, some (Json.arr [])⟩ ∧
    getMeetings emptyDB none = ⟨200, some (Json.arr [])⟩ ∧
    getBookings emptyDB none = ⟨200, some (Json.arr [])⟩ :=
  ⟨(empty_list_200 emptyDB).1 rfl, (empty_list_200 emptyDB).2.1 rfl,
   (empty_list_200 emptyDB).2.2.1 rfl, (empty_list_200 emptyDB).2.2.2.1 rfl,
   (empty_list_200 emptyDB).2.2.2.2 rfl⟩

/-- `handleResponse` never introduces a `password` key: its error bodies use
only the `error` key, and its success body is the payload it was given. -/
theorem respPwFree_handleResponse (e : Option String) (d : Option Json)
    (nf : Nat) (nm : String) (ch : Option Nat) (hd : optPwFree d = true) :
    respPwFree (handleResponse e d nf nm ch) = true := by
  cases e with
  | some m => rfl
  | none =>
    by_cases h : (jsFalsy d = true ∧ changesFalsy ch = true)
    · simp [handleResponse, h, respPwFree, optPwFree, pwFreeJ, pwFreeO]
    · simpa [handleResponse, h, respPwFree] using hd

theorem pwFreeJ_obj (fs : List (String × Json)) :
    pwFreeJ (Json.obj fs) = pwFreeO fs := by
  simp [pwFreeJ]

theorem pwFreeJ_str (t : String) : pwFreeJ (Json.str t) = true := by
  simp [pwFreeJ]

theorem pwFreeO_nil : pwFreeO [] = true := by
  simp [pwFreeO]

theorem pwFreeO_cons (k : String) (v : Json) (fs : List (String × Json)) :
    pwFreeO ((k, v) :: fs) = (!(k == "password") && pwFreeJ v && pwFreeO fs) := by
  simp [pwFreeO]

theorem pwFreeJ_custSan (c : CustRow) :
    pwFreeJ (jsDelete "password" (custToJson c)) = true := by
  simp [jsDelete, custToJson, pwFreeJ, pwFreeO, pwFree_valToJson]

theorem pwFreeL_custSan (l : List CustRow) :
    pwFreeL (l.map (fun c => jsDelete "password" (custToJson c))) = true := by
  induction l with
  | nil => rfl
  | cons c l ih => simp [pwFreeL, pwFreeJ_custSan, ih]

/-- **C4.** Every customer read response — the GET /customers list (each
element included), GET /customers/:id, and the login response — contains
no `password` key anywhere in its body, for every storage state and
storage outcome (the error bodies trivially so, the success bodies because
the handlers delete the field from a copy of each row before responding). -/
theorem customer_reads_password_free (s : DB) (e : Option String) (id : Nat)
    (ph pw : Option Val) :
    respPwFree (getCustomers s e) = true ∧
    respPwFree (getCustomerById s e id) = true ∧
    respPwFree (postLogin s e ph pw) = true := by
  refine ⟨?_, ?_, ?_⟩
  · cases e with
    | some m => exact respPwFree_handleResponse (some m) none 404 "Not found" none rfl
    | none =>
      exact respPwFree_handleResponse none _ 404 "Not found" none
        (pwFreeL_custSan s.customers)
  · cases e with
    | some m =>
      exact respPwFree_handleResponse (some m) none 404 "Customer not found" none rfl
    | none =>
      cases h : (s.customers.filter (fun c => c.idx == id)).head? with
      | none =>
        have : getCustomerById s none id =
            handleResponse none none 404 "Customer not found" none := by
          simp [getCustomerById, h]
        rw [this]
        exact respPwFree_handleResponse none none 404 "Customer not found" none rfl
      | some c =>
        have : getCustomerById s none id =
            handleResponse none (some (jsDelete "password" (custToJson c)))
              404 "Not found" none := by
          simp [getCustomerById, h]
        rw [this]
        exact respPwFree_handleResponse none _ 404 "Not found" none
          (pwFreeJ_custSan c)
  · by_cases hv : (jsFalsyVal ph || jsFalsyVal pw) = true
    · simp [postLogin, hv, respPwFree, optPwFree, pwFreeJ, pwFreeO]
    · rw [Bool.not_eq_true, Bool.or_eq_false_iff] at hv
      cases e with
      | some m =>
        simp [postLogin, hv.1, hv.2, respPwFree, optPwFree, pwFreeJ, pwFreeO]
      | none =>
        cases h : (s.customers.filter (fun c =>
            valEq c.phone (ph.getD Val.vnull) &&
            valEq c.password (pw.getD Val.vnull))).head? with
        | none =>
          unfold postLogin
          rw [hv.1, hv.2, h]
          rfl
        | some c =>
          unfold postLogin
          rw [hv.1, hv.2, h]
          simp [respPwFree, optPwFree, pwFreeJ_obj, pwFreeO_cons, pwFreeO_nil,
            pwFreeJ_str, pwFreeJ_custSan]

/-- **C6.** GET /trips serializes exactly the inner-join pairs, every such
pair joins a destination row present in the store whose `idx` the trip's
`destinationid` matches numerically, and after DELETE /destinations/:did
no trip row with `destinationid` matching `did` contributes any pair: a
trip whose destination has been deleted disappears from GET /trips. -/
theorem trips_inner_join (s : DB) (did : Nat) :
    getTrips s none = ⟨200, some (Json.arr ((tripJoinPairs s).map tripJoinedToJson))⟩ ∧
    (∀ p ∈ tripJoinPairs s, p.2 ∈ s.destinations ∧
      valEq p.1.destinationid (Val.vint (p.2.idx : Int)) = true) ∧
    (∀ p ∈ tripJoinPairs (deleteDestination s none did).2,
      valEq p.1.destinationid (Val.vint (did : Int)) = false) := by
  refine ⟨rfl, fun p hp => ⟨(mem_tripJoinPairs hp).2.1, (mem_tripJoinPairs hp).2.2⟩,
    fun p hp => ?_⟩
  obtain ⟨-, hd, hv⟩ := mem_tripJoinPairs hp
  have hd2 : p.2 ∈ s.destinations.filter (fun d => !(d.idx == did)) := hd
  have hne : ¬ p.2.idx = did := by
    have := (List.mem_filter.mp hd2).2
    simpa using this
  by_contra hcon
  rw [Bool.not_eq_false] at hcon
  have := valEq_vint_inj hv hcon
  exact hne (by exact_mod_cast this)

/-- Witness for C6: on the seeded store, the Tokyo trip joins destination 1
(Asia); after deleting destination 1, no joined pair matches it. -/
theorem trips_inner_join_witness :
    ((⟨1, Val.vstr "Tokyo Adventure", Val.vstr "Japan", Val.vint 1,
       Val.vstr "tokyo.jpg", Val.vstr "Explore the vibrant city of Tokyo",
       Val.vreal 1500, Val.vint 7⟩, ⟨1, Val.vstr "Asia"⟩) :
        TripRow × DestRow).2 ∈ seedDB.destinations ∧
    valEq (Val.vint 2) (Val.vint (1 : Int)) = false :=
  ⟨((trips_inner_join seedDB 1).2.1 _ (by decide)).1,
   (trips_inner_join seedDB 1).2.2
     (⟨2, Val.vstr "Paris Romance", Val.vstr "France", Val.vint 2,
       Val.vstr "paris.jpg", Val.vstr "Romantic getaway in the City of Light",
       Val.vreal 2000, Val.vint 5⟩, ⟨2, Val.vstr "Europe"⟩) (by decide)⟩

theorem tripJoin_filter_deleted (s : DB) (id : Nat) :
    (tripJoinPairs ((deleteTrip s none id).2)).filter (fun p => p.1.idx == id) = [] := by
  refine List.filter_eq_nil_iff.mpr ?_
  intro p hp
  have h1 : p.1 ∈ s.trips.filter (fun t => !(t.idx == id)) := (mem_tripJoinPairs hp).1
  have := (List.mem_filter.mp h1).2
  simpa using this

/-- **C7.** For every resource and every id (in particular every id present
in the store), DELETE by that id followed by GET by the same id answers
404 from the GET: the delete removes every row with that id, so the
subsequent lookup finds none. -/
theorem delete_then_get_404 (s : DB) (id : Nat) :
    getDestinationById (deleteDestination s none id).2 none id =
      ⟨404, some (Json.obj [("error", Json.str "Destination not found")])⟩ ∧
    getTripById (deleteTrip s none id).2 none id =
      ⟨404, some (Json.obj [("error", Json.str "Trip not found")])⟩ ∧
    getCustomerById (deleteCustomer s none id).2 none id =
      ⟨404, some (Json.obj [("error", Json.str "Customer not found")])⟩ ∧
    getMeetingById (deleteMeeting s none id).2 none id =
      ⟨404, some (Json.obj [("error", Json.str "Meeting not found")])⟩ ∧
    getBookingById (deleteBooking s none id).2 none id =
      ⟨404, some (Json.obj [("error", Json.str "Booking not found")])⟩ := by
  refine ⟨?_, ?_, ?_, ?_, ?_⟩
  · have h : (s.destinations.filter (fun d => !(d.idx == id))).filter
        (fun d => d.idx == id) = [] := filter_key_of_removed (fun d : DestRow => d.idx) _ id
    simp [getDestinationById, deleteDestination, handleResponse, jsFalsy,
      changesFalsy, h]
  · have h := tripJoin_filter_deleted s id
    simp [getTripById, handleResponse, jsFalsy, changesFalsy, h]
  · have h : (s.customers.filter (fun c => !(c.idx == id))).filter
        (fun c => c.idx == id) = [] := filter_key_of_removed (fun c : CustRow => c.idx) _ id
    simp [getCustomerById, deleteCustomer, handleResponse, jsFalsy,
      changesFalsy, h]
  · have h : (s.meetings.filter (fun m => !(m.idx == id))).filter
        (fun m => m.idx == id) = [] := filter_key_of_removed (fun m : MeetRow => m.idx) _ id
    simp [getMeetingById, deleteMeeting, handleResponse, jsFalsy,
      changesFalsy, h]
  · have h : (s.bookings.filter (fun r => !(r.idx == id))).filter
        (fun r => r.idx == id) = [] := filter_key_of_removed (fun r : BookRow => r.idx) _ id
    simp [getBookingById, deleteBooking, handleResponse, jsFalsy,
      changesFalsy, h]

/-- **C8.** The file-backed `src/server.js` and the in-memory
`src/unnamed/part_000` implement identical endpoint behavior: for every
request, storage state and storage outcome, the two embedded handler sets
(`serve` vs `serveM`, each retracing its own file's formatter and handlers)
produce the same response and the same resulting store — in particular
both PUT /customers/:id handlers update only fullname, phone, email and
image, never password.  The files differ only in storage location, seeding
and startup logging. -/
theorem variants_agree (s : DB) (e : Option String) (r : Req) :
    serve s e r = serveM s e r := by
  cases r <;> rfl

/-- **C9.** PUT /customers/:id touches only the fullname, phone, email and
image columns of the addressed row: the other four tables are untouched,
the customer list keeps its ids and its stored passwords unchanged
position by position, and every row whose id differs from the addressed
one is returned to the store exactly as it was. -/
theorem putCustomer_frame (s : DB) (id : Nat) (b : CustUpdBody) :
    (putCustomer s none id b).2.destinations = s.destinations ∧
    (putCustomer s none id b).2.trips = s.trips ∧
    (putCustomer s none id b).2.meetings = s.meetings ∧
    (putCustomer s none id b).2.bookings = s.bookings ∧
    (putCustomer s none id b).2.customers.map (fun c => c.password) =
      s.customers.map (fun c => c.password) ∧
    (putCustomer s none id b).2.customers.map (fun c => c.idx) =
      s.customers.map (fun c => c.idx) ∧
    (∀ c ∈ (putCustomer s none id b).2.customers, ¬ c.idx = id →
      c ∈ s.customers) := by
  refine ⟨rfl, rfl, rfl, rfl, ?_, ?_, ?_⟩
  · show (s.customers.map _).map _ = _
    rw [List.map_map]
    refine List.map_congr_left ?_
    intro c _
    by_cases h : c.idx = id <;> simp [h]
  · show (s.customers.map _).map _ = _
    rw [List.map_map]
    refine List.map_congr_left ?_
    intro c _
    by_cases h : c.idx = id <;> simp [h]
  · intro c hc hne
    obtain ⟨c0, hc0, rfl⟩ := List.mem_map.mp hc
    have hidx : ((if (c0.idx == id) = true then
        { c0 with fullname := b.fullname, phone := b.phone, email := b.email,
                  image := b.image } else c0) : CustRow).idx = c0.idx := by
      by_cases h : c0.idx = id <;> simp [h]
    rw [hidx] at hne
    have h0 : (c0.idx == id) = false := beq_eq_false_iff_ne.mpr hne
    simpa [h0] using hc0

/-- Witness for C9: on a two-customer store, updating customer 1 leaves
customer 2's row (and in particular every stored password) unchanged. -/
theorem putCustomer_frame_witness :
    (⟨2, Val.vstr "B", Val.vstr "222", Val.vnull, Val.vnull, Val.vstr "pw2"⟩ :
        CustRow) ∈
      ({ emptyDB with
          customers :=
            [⟨1, Val.vstr "A", Val.vstr "111", Val.vnull, Val.vnull, Val.vstr "pw1"⟩,
             ⟨2, Val.vstr "B", Val.vstr "222", Val.vnull, Val.vnull, Val.vstr "pw2"⟩],
          nextCust := 3 } : DB).customers :=
  (putCustomer_frame
    { emptyDB with
        customers :=
          [⟨1, Val.vstr "A", Val.vstr "111", Val.vnull, Val.vnull, Val.vstr "pw1"⟩,
           ⟨2, Val.vstr "B", Val.vstr "222", Val.vnull, Val.vnull, Val.vstr "pw2"⟩],
        nextCust := 3 } 1
    ⟨Val.vstr "A2", Val.vstr "333", Val.vnull, Val.vnull⟩).2.2.2.2.2.2
    ⟨2, Val.vstr "B", Val.vstr "222", Val.vnull, Val.vnull, Val.vstr "pw2"⟩
    (by decide) (by decide)

/-- **C5 (counterexample).** The claim promises for every resource that a
created row can be fetched back by the returned id.  For Trip it fails:
on a store with no destinations, POST /trips with `destinationid` 1
answers 200 with the new id 1, yet GET /trips/1 answers 404 — the
get-by-id query carries the same inner join, so a trip whose
`destinationid` matches no destination row cannot be fetched back. -/
theorem roundtrip_counterexample :
    (postTrip emptyDB none
        ⟨Val.vstr "Kyoto Days", Val.vstr "Japan", Val.vint 1, Val.vnull,
         Val.vnull, Val.vint 900, Val.vint 4⟩).1 =
      ⟨200, some (Json.obj [("message", Json.str "Trip created successfully"),
        ("id", Json.num 1)])⟩ ∧
    getTripById (postTrip emptyDB none
        ⟨Val.vstr "Kyoto Days", Val.vstr "Japan", Val.vint 1, Val.vnull,
         Val.vnull, Val.vint 900, Val.vint 4⟩).2 none 1 =
      ⟨404, some (Json.obj [("error", Json.str "Trip not found")])⟩ :=
  ⟨rfl, rfl⟩

/-- **C5 (amended).** On a store whose ids respect the AUTOINCREMENT
invariant: for Destination, Meeting, Booking and Customer, POST answers
200 with the created message and the newly assigned id, and GET by that id
returns exactly the submitted fields — for Customer without any password
field.  For Trip the same holds provided the submitted `destinationid`
matches an existing destination row (the first match `d` under the SQL
scan order): the fetched row then carries the submitted fields (with
`destinationid` itself replaced by the joined `destination_zone` of `d`,
as the get-by-id SELECT list does).  In particular, on the seeded store
(destination 1 = Asia), POST /trips for Kyoto Days answers the created
message with new id 3 and GET /trips/3 answers 200 with
`destination_zone` Asia. -/
theorem roundtrip_amended (s : DB) (hwf : WF s = true) :
    (∀ zone,
      (postDestination s none zone).1 =
        ⟨200, some (Json.obj [("message", Json.str "Destination created successfully"),
          ("id", Json.num (s.nextDest : ℚ))])⟩ ∧
      getDestinationById (postDestination s none zone).2 none s.nextDest =
        ⟨200, some (Json.obj [("idx", Json.num (s.nextDest : ℚ)),
          ("zone", valToJson zone)])⟩) ∧
    (∀ b : MeetBody,
      (postMeeting s none b).1 =
        ⟨200, some (Json.obj [("message", Json.str "Meeting created successfully"),
          ("id", Json.num (s.nextMeet : ℚ))])⟩ ∧
      getMeetingById (postMeeting s none b).2 none s.nextMeet =
        ⟨200, some (Json.obj [("idx", Json.num (s.nextMeet : ℚ)),
          ("detail", valToJson b.detail),
          ("meetingdatetime", valToJson b.meetingdatetime),
          ("latitude", valToJson b.latitude),
          ("longitude", valToJson b.longitude)])⟩) ∧
    (∀ b : BookBody,
      (postBooking s none b).1 =
        ⟨200, some (Json.obj [("message", Json.str "Booking created successfully"),
          ("id", Json.num (s.nextBook : ℚ))])⟩ ∧
      getBookingById (postBooking s none b).2 none s.nextBook =
        ⟨200, some (Json.obj [("idx", Json.num (s.nextBook : ℚ)),
          ("customerid", valToJson b.customerid),
          ("bookdatetime", valToJson b.bookdatetime),
          ("tripid", valToJson b.tripid),
          ("meetingid", valToJson b.meetingid)])⟩) ∧
    (∀ b : CustBody,
      (postCustomer s none b).1 =
        ⟨200, some (Json.obj [("message", Json.str "Customer created successfully"),
          ("id", Json.num (s.nextCust : ℚ))])⟩ ∧
      getCustomerById (postCustomer s none b).2 none s.nextCust =
        ⟨200, some (Json.obj [("idx", Json.num (s.nextCust : ℚ)),
          ("fullname", valToJson b.fullname), ("phone", valToJson b.phone),
          ("email", valToJson b.email), ("image", valToJson b.image)])⟩) ∧
    (∀ b : TripBody,
      (postTrip s none b).1 =
        ⟨200, some (Json.obj [("message", Json.str "Trip created successfully"),
          ("id", Json.num (s.nextTrip : ℚ))])⟩ ∧
      ∀ d, (s.destinations.filter (fun d0 =>
          valEq b.destinationid (Val.vint (d0.idx : Int)))).head? = some d →
        getTripById (postTrip s none b).2 none s.nextTrip =
          ⟨200, some (Json.obj [("idx", Json.num (s.nextTrip : ℚ)),
            ("name", valToJson b.name), ("country", valToJson b.country),
            ("coverimage", valToJson b.coverimage), ("detail", valToJson b.detail),
            ("price", valToJson b.price), ("duration", valToJson b.duration),
            ("destination_zone", valToJson d.zone)])⟩) ∧
    ((postTrip seedDB none
        ⟨Val.vstr "Kyoto Days", Val.vstr "Japan", Val.vint 1, Val.vnull,
         Val.vnull, Val.vint 900, Val.vint 4⟩).1 =
      ⟨200, some (Json.obj [("message", Json.str "Trip created successfully"),
        ("id", Json.num 3)])⟩ ∧
    getTripById (postTrip seedDB none
        ⟨Val.vstr "Kyoto Days", Val.vstr "Japan", Val.vint 1, Val.vnull,
         Val.vnull, Val.vint 900, Val.vint 4⟩).2 none 3 =
      ⟨200, some (Json.obj [("idx", Json.num 3),
        ("name", Json.str "Kyoto Days"), ("country", Json.str "Japan"),
        ("coverimage", Json.null), ("detail", Json.null),
        ("price", Json.num 900), ("duration", Json.num 4),
        ("destination_zone", Json.str "Asia")])⟩) := by
  have hw := hwf
  simp only [WF, Bool.and_eq_true, List.all_eq_true, decide_eq_true_eq] at hw
  obtain ⟨⟨⟨⟨hdst, htrp⟩, hcst⟩, hmtg⟩, hbkg⟩ := hw
  refine ⟨fun zone => ⟨rfl, ?_⟩, fun b => ⟨rfl, ?_⟩, fun b => ⟨rfl, ?_⟩,
    fun b => ⟨rfl, ?_⟩, fun b => ⟨rfl, ?_⟩, rfl, rfl⟩
  · have hf := filter_key_append_fresh (fun d : DestRow => d.idx) s.destinations
      ⟨s.nextDest, zone⟩ s.nextDest rfl hdst
    simp [getDestinationById, postDestination, handleResponse, jsFalsy,
      changesFalsy, hf, destToJson]
  · have hf := filter_key_append_fresh (fun m : MeetRow => m.idx) s.meetings
      ⟨s.nextMeet, b.detail, b.meetingdatetime, b.latitude, b.longitude⟩
      s.nextMeet rfl hmtg
    simp [getMeetingById, postMeeting, handleResponse, jsFalsy,
      changesFalsy, hf, meetToJson]
  · have hf := filter_key_append_fresh (fun r : BookRow => r.idx) s.bookings
      ⟨s.nextBook, b.customerid, b.bookdatetime, b.tripid, b.meetingid⟩
      s.nextBook rfl hbkg
    simp [getBookingById, postBooking, handleResponse, jsFalsy,
      changesFalsy, hf, bookToJson]
  · have hf := filter_key_append_fresh (fun c : CustRow => c.idx) s.customers
      ⟨s.nextCust, b.fullname, b.phone, b.email, b.image, b.password⟩
      s.nextCust rfl hcst
    simp [getCustomerById, postCustomer, handleResponse, jsFalsy,
      changesFalsy, hf, jsDelete, custToJson]
  · intro d hd
    have hsplit : tripJoinPairs (postTrip s none b).2 =
        s.trips.flatMap (fun t => (s.destinations.filter (fun d0 =>
            valEq t.destinationid (Val.vint (d0.idx : Int)))).map (fun d0 => (t, d0))) ++
        (s.destinations.filter (fun d0 =>
            valEq b.destinationid (Val.vint (d0.idx : Int)))).map
          (fun d0 => (⟨s.nextTrip, b.name, b.country, b.destinationid,
            b.coverimage, b.detail, b.price, b.duration⟩, d0)) := by
      show (s.trips ++ [(⟨s.nextTrip, b.name, b.country, b.destinationid,
        b.coverimage, b.detail, b.price, b.duration⟩ : TripRow)]).flatMap _ = _
      rw [List.flatMap_append]
      simp
      rfl
    have h1 : (s.trips.flatMap (fun t => (s.destinations.filter (fun d0 =>
        valEq t.destinationid (Val.vint (d0.idx : Int)))).map
          (fun d0 => (t, d0)))).filter
        (fun p => p.1.idx == s.nextTrip) = [] := by
      refine List.filter_eq_nil_iff.mpr ?_
      intro p hp
      obtain ⟨t, ht, hmem⟩ := List.mem_flatMap.mp hp
      obtain ⟨d0, hd0, rfl⟩ := List.mem_map.mp hmem
      simpa using Nat.ne_of_lt (htrp t ht)
    have h2 : ((s.destinations.filter (fun d0 =>
        valEq b.destinationid (Val.vint (d0.idx : Int)))).map
          (fun d0 => ((⟨s.nextTrip, b.name, b.country, b.destinationid,
            b.coverimage, b.detail, b.price, b.duration⟩ : TripRow), d0))).filter
        (fun p => p.1.idx == s.nextTrip) =
        (s.destinations.filter (fun d0 =>
          valEq b.destinationid (Val.vint (d0.idx : Int)))).map
          (fun d0 => ((⟨s.nextTrip, b.name, b.country, b.destinationid,
            b.coverimage, b.detail, b.price, b.duration⟩ : TripRow), d0)) := by
      refine List.filter_eq_self.mpr ?_
      intro p hp
      obtain ⟨d0, hd0, rfl⟩ := List.mem_map.mp hp
      simp
    simp [getTripById, hsplit, List.filter_append, h1, h2, List.head?_map, hd,
      handleResponse, jsFalsy, changesFalsy, tripJoinedToJson]

/-- Witness for C5: the amended theorem applied on the seeded store — the
destination round-trip at the next free id 4, and the concrete Kyoto Days
scenario ending in `destination_zone` Asia. -/
theorem roundtrip_amended_witness :
    getDestinationById (postDestination seedDB none (Val.vstr "Z")).2 none
        seedDB.nextDest =
      ⟨200, some (Json.obj [("idx", Json.num (seedDB.nextDest : ℚ)),
        ("zone", valToJson (Val.vstr "Z"))])⟩ ∧
    getTripById (postTrip seedDB none
        ⟨Val.vstr "Kyoto Days", Val.vstr "Japan", Val.vint 1, Val.vnull,
         Val.vnull, Val.vint 900, Val.vint 4⟩).2 none 3 =
      ⟨200, some (Json.obj [("idx", Json.num 3),
        ("name", Json.str "Kyoto Days"), ("country", Json.str "Japan"),
        ("coverimage", Json.null), ("detail", Json.null),
        ("price", Json.num 900), ("duration", Json.num 4),
        ("destination_zone", Json.str "Asia")])⟩ :=
  ⟨((roundtrip_amended seedDB (by decide)).1 (Val.vstr "Z")).2,
   (roundtrip_amended seedDB (by decide)).2.2.2.2.2.2⟩

end TripBooking
